import Mathlib

/-!
Verification of the principal-resolution / RBAC subsystem of the LMS backend
(`app/core/security/roles.py`, `app/core/security/jwt.py`,
`app/core/security/oidc.py`, `app/api/deps.py`, `app/schemas/security.py`,
`app/services/users.py`), via a shallow embedding of the Python code into Lean.

Python strings are modelled as Lean `String`; Python string methods used by the
code (`strip`, `split`, `lower`, `upper`, `replace`) are re-implemented below
with Python semantics on the ASCII inputs the code handles.  Fallible Python
code (raised exceptions) is modelled with `Except`; `HTTPException` becomes the
`HTTPError` structure (status, detail, optional WWW-Authenticate header).
-/

namespace LMS

/-! ### Python string-method models -/

/-- Python whitespace for `str.strip()` (space, tab, LF, CR, VT, FF). -/
def isPyWs (c : Char) : Bool :=
  c = ' ' || c = '\t' || c = '\n' || c = '\r' || c = '\x0b' || c = '\x0c'

/-- Drop leading Python-whitespace characters. -/
def dropLeadWs : List Char → List Char
  | [] => []
  | c :: cs => if isPyWs c then dropLeadWs cs else c :: cs

/-- Model of Python `s.strip()`. -/
def pyStrip (s : String) : String :=
  ⟨(dropLeadWs ((dropLeadWs s.data).reverse)).reverse⟩

/-- Python truthiness of a string: `""` is falsy. -/
def pyEmpty (s : String) : Bool := s.data.isEmpty

/-- Model of Python `s.lower()` (ASCII). -/
def pyLower (s : String) : String := ⟨s.data.map Char.toLower⟩

/-- Model of Python `s.upper()` (ASCII). -/
def pyUpper (s : String) : String := ⟨s.data.map Char.toUpper⟩

/-- Split a character list at every occurrence of `sep` (Python `s.split(sep)`:
adjacent separators yield empty segments, `""` yields `[""]`). -/
def splitCharAux (sep : Char) : List Char → List Char → List (List Char)
  | [], acc => [acc.reverse]
  | c :: cs, acc =>
    if c = sep then acc.reverse :: splitCharAux sep cs []
    else splitCharAux sep cs (c :: acc)

/-- Model of Python `s.split(sep)` for a single-character separator. -/
def pySplitOn (sep : Char) (s : String) : List String :=
  (splitCharAux sep s.data []).map (fun l => ⟨l⟩)

/-- Split on runs of whitespace, discarding empty segments
(Python `s.split()` with no argument). -/
def pySplitWsAux : List Char → List Char → List (List Char)
  | [], acc => if acc.isEmpty then [] else [acc.reverse]
  | c :: cs, acc =>
    if isPyWs c then
      (if acc.isEmpty then pySplitWsAux cs [] else acc.reverse :: pySplitWsAux cs [])
    else pySplitWsAux cs (c :: acc)

/-- Model of Python `s.split()` (no argument). -/
def pySplitWs (s : String) : List String :=
  (pySplitWsAux s.data []).map (fun l => ⟨l⟩)

/-- Model of Python `s.split(sep, 1)` when `sep in s`: the part before the
first `sep` and the part after it; `none` when `sep` does not occur. -/
def splitFirstAux (sep : Char) : List Char → Option (List Char × List Char)
  | [] => none
  | c :: cs =>
    if c = sep then some ([], cs)
    else (splitFirstAux sep cs).map (fun p => (c :: p.1, p.2))

/-- First truthy value of a chain `a or b or ...` of optional strings
(Python: `None` and `""` are falsy). -/
def firstTruthy : List (Option String) → Option String
  | [] => none
  | none :: rest => firstTruthy rest
  | some s :: rest => if pyEmpty s then firstTruthy rest else some s

/-! ### `app/core/security/roles.py` -/

instance {ε α : Type} [DecidableEq ε] [DecidableEq α] : DecidableEq (Except ε α) := fun a b =>
  match a, b with
  | .ok x, .ok y =>
    if h : x = y then .isTrue (by rw [h]) else .isFalse (fun he => h (Except.ok.inj he))
  | .error x, .error y =>
    if h : x = y then .isTrue (by rw [h]) else .isFalse (fun he => h (Except.error.inj he))
  | .ok _, .error _ => .isFalse (fun he => Except.noConfusion he)
  | .error _, .ok _ => .isFalse (fun he => Except.noConfusion he)

/-- The `Role` enum (`class Role(str, Enum)`), in source declaration order:
LEARNER, EMPLOYEE, INSTRUCTOR, MANAGER, SUPERADMIN, ADMIN. -/
inductive Role where
  | learner
  | employee
  | instructor
  | manager
  | superadmin
  | admin
deriving DecidableEq, Repr

/-- Python enum member `.name` of a `Role`. -/
def Role.pyName : Role → String
  | .learner => "LEARNER"
  | .employee => "EMPLOYEE"
  | .instructor => "INSTRUCTOR"
  | .manager => "MANAGER"
  | .superadmin => "SUPERADMIN"
  | .admin => "ADMIN"

/-- Python enum member `.value` of a `Role`. -/
def Role.value : Role → String
  | .learner => "Learner"
  | .employee => "Employee"
  | .instructor => "Instructor"
  | .manager => "Manager"
  | .superadmin => "SuperAdmin"
  | .admin => "Admin"

/-- Iteration order of `for role in Role` (declaration order). -/
def allRoles : List Role :=
  [.learner, .employee, .instructor, .manager, .superadmin, .admin]

/-- `value.replace("-", "_").replace(" ", "_")` from `from_str`. -/
def replaceSeps (s : String) : String :=
  ⟨s.data.map (fun c => if c = '-' || c = ' ' then '_' else c)⟩

/-- `roles.from_str`: parse a `Role` from a string; case-insensitive name
match after mapping `-`/space to `_`, or case-insensitive match against the
enum value.  Raises `ValueError` (modelled as `.error msg`) on empty or
unknown input. -/
def from_str (value : String) : Except String Role :=
  let normalized := pyStrip value
  if pyEmpty normalized then .error "Role string is empty"
  else
    let key := pyUpper (replaceSeps normalized)
    match allRoles.find?
        (fun r => decide (r.pyName = key) || decide (pyLower r.value = pyLower normalized)) with
    | some r => .ok r
    | none => .error ("Unknown role: " ++ value)

/-! ### `app/schemas/security.py` and HTTP errors -/

/-- The pydantic `Principal` model: `subject : str` (required, no further
constraint), `roles : list[Role]` (default `[]`), `email : str | None`
(default `None`). -/
structure Principal where
  subject : String
  email : Option String := none
  roles : List Role := []
deriving DecidableEq, Repr

/-- `fastapi.HTTPException` as raised by this code base: a status code, a
detail message, and an optional `WWW-Authenticate` response header. -/
structure HTTPError where
  status : Nat
  detail : String
  wwwAuthenticate : Option String := none
deriving DecidableEq, Repr

/-- Pydantic model validation for `Principal`: the `subject` field is
required (missing field fails validation), `roles` and `email` take their
defaults when absent.  No validator constrains the content of `subject`. -/
def principal_model_validate (subject? : Option String) (email? : Option (Option String))
    (roles? : Option (List Role)) : Option Principal :=
  match subject? with
  | none => none
  | some s => some ⟨s, email?.getD none, roles?.getD []⟩

/-! ### `app/api/deps.py` -/

/-- Python `str(role)` for a member of `class Role(str, Enum)`:
`Enum.__str__` yields `"Role.<NAME>"`. -/
def roleStr (r : Role) : String := "Role." ++ r.pyName

/-- `deps.require_roles(required_roles)` applied to the current principal:
the inner `_enforce` builds the string sets of the user's and the required
roles and raises 403 `"Forbidden"` when their intersection is empty,
otherwise returns the principal unchanged. -/
def require_roles (required : List Role) (user : Principal) : Except HTTPError Principal :=
  let userRoleStrings := user.roles.map roleStr
  let requiredStrings := required.map roleStr
  if userRoleStrings.any (fun s => requiredStrings.any (fun t => decide (t = s))) then
    .ok user
  else
    .error ⟨403, "Forbidden", none⟩

/-! ### `app/core/security/oidc.py` -/

/-- The request headers read by the principal resolver. -/
structure ReqHeaders where
  xAuthSubject : Option String := none
  xAuthEmail : Option String := none
  xAuthRoles : Option String := none
  authorization : Option String := none
deriving DecidableEq, Repr

/-- The loop body of `_parse_roles_csv`: skip empty (already-stripped)
entries, parse the rest via `from_str`, propagating the first `ValueError`. -/
def parseRolesList : List String → Except String (List Role)
  | [] => .ok []
  | p :: ps =>
    if pyEmpty p then parseRolesList ps
    else do
      let r ← from_str p
      let rest ← parseRolesList ps
      .ok (r :: rest)

/-- `oidc._parse_roles_csv`: `None`/empty input yields `[]`; otherwise split
on commas, strip each part, skip empties, parse each remaining token via
`from_str` (first failure propagates). -/
def parse_roles_csv (csv : String) : Except String (List Role) :=
  if pyEmpty csv then .ok []
  else parseRolesList ((pySplitOn ',' csv).map pyStrip)

/-- `oidc.get_current_principal` as present in the source snapshot:
when `settings.auth_stub` is false it raises
`HTTPException(501, "Authentication is not implemented yet.")`; in stub mode
it reads `X-Auth-Subject` (falling back to `"stub-user"` when the header is
missing or empty), `X-Auth-Email` (as-is), and `X-Auth-Roles` (CSV parsed by
`_parse_roles_csv`; a `ValueError` becomes a 400 with the error text). -/
def get_current_principal (authStub : Bool) (h : ReqHeaders) : Except HTTPError Principal :=
  if !authStub then
    .error ⟨501, "Authentication is not implemented yet.", none⟩
  else
    let subject :=
      match h.xAuthSubject with
      | some s => if pyEmpty s then "stub-user" else s
      | none => "stub-user"
    let rolesRes : Except String (List Role) :=
      match h.xAuthRoles with
      | some s => if pyEmpty s then .ok [] else parse_roles_csv s
      | none => .ok []
    match rolesRes with
    | .error e => .error ⟨400, e, none⟩
    | .ok roles => .ok ⟨subject, h.xAuthEmail, roles⟩

/-! ### `app/core/security/jwt.py` — claims handling -/

/-- A claim value as consumed by `_roles_from_claims._consume`: a string
(CSV or single) or a list (items already stringified; `None` items are
dropped by the source loop before stringification). -/
inductive CVal where
  | str (s : String)
  | list (items : List String)
deriving DecidableEq, Repr

/-- The token claims accessed by `_principal_from_claims` /
`_roles_from_claims`.  String-typed claims are `Option String` (absent or
non-string values that the code ignores are `none`). -/
structure Claims where
  sub : Option String := none
  oid : Option String := none
  user_id : Option String := none
  email : Option String := none
  preferred_username : Option String := none
  upn : Option String := none
  roles : Option CVal := none
  role : Option CVal := none
  groups : Option CVal := none
  scope : Option String := none
  scp : Option String := none
deriving DecidableEq, Repr

/-- `_roles_from_claims._consume` on one claim value: a string with a comma
is CSV-split, stripped and filtered of empties; a plain string is stripped
(nothing when blank); a list is stripped item-wise and filtered of empties.
Every surviving candidate goes through `from_str`, whose `ValueError`
propagates (strict). -/
def consume : Option CVal → Except String (List Role)
  | none => .ok []
  | some (.str v) =>
    let candidates :=
      if v.data.contains ',' then
        ((pySplitOn ',' v).map pyStrip).filter (fun p => !pyEmpty p)
      else if pyEmpty (pyStrip v) then [] else [pyStrip v]
    parseRolesList candidates
  | some (.list items) =>
    parseRolesList (items.map pyStrip)

/-- The scope scan of `_roles_from_claims`: for each whitespace-separated
part containing a colon, split at the first colon; when the key lowercases
to `role`/`roles` and the stripped value is non-empty, parse it with
`from_str`, silently skipping a `ValueError` (lenient). -/
def scopeRolesAux : List String → List Role
  | [] => []
  | part :: rest =>
    match splitFirstAux ':' part.data with
    | none => scopeRolesAux rest
    | some (k, v) =>
      let kS := pyLower ⟨k⟩
      let vS := pyStrip ⟨v⟩
      if (kS = "role" || kS = "roles") && !pyEmpty vS then
        match from_str vS with
        | .ok r => r :: scopeRolesAux rest
        | .error _ => scopeRolesAux rest
      else scopeRolesAux rest

/-- The role contribution of the `scope`/`scp` claim:
`claims.get("scope") or claims.get("scp")`, used only when it is a
non-blank string. -/
def scopeContrib (c : Claims) : List Role :=
  match firstTruthy [c.scope, c.scp] with
  | some s => if pyEmpty (pyStrip s) then [] else scopeRolesAux (pySplitWs s)
  | none => []

/-- The final dedup loop of `_roles_from_claims`: keep the first occurrence
of each role (keyed on `r.value`, injective on `Role`). -/
def dedupRoles : List Role → List Role → List Role
  | [], _ => []
  | r :: rest, seen =>
    if r ∈ seen then dedupRoles rest seen else r :: dedupRoles rest (r :: seen)

/-- `jwt._roles_from_claims`: consume `roles`, `role`, `groups` strictly (in
that order), then the lenient scope scan, then deduplicate preserving
first-seen order. -/
def roles_from_claims (c : Claims) : Except String (List Role) := do
  let r1 ← consume c.roles
  let r2 ← consume c.role
  let r3 ← consume c.groups
  .ok (dedupRoles (r1 ++ r2 ++ r3 ++ scopeContrib c) [])

/-- An exception escaping `_principal_from_claims`: either an
`HTTPException` or a `ValueError` from role parsing. -/
inductive AuthErr where
  | http (e : HTTPError)
  | valueError (msg : String)
deriving DecidableEq, Repr

/-- The subject expression of `_principal_from_claims` before `.strip()`:
`claims.get("sub") or claims.get("oid") or claims.get("user_id") or ""`. -/
def rawSubject (c : Claims) : String :=
  (firstTruthy [c.sub, c.oid, c.user_id]).getD ""

/-- `jwt._principal_from_claims`: the stripped subject chain must be
non-empty (else 401 with a `WWW-Authenticate: Bearer` challenge); the email
is the first truthy of `email`/`preferred_username`/`upn`, stripped, or
`None` when blank; roles come from `_roles_from_claims` (whose `ValueError`
propagates). -/
def principal_from_claims (c : Claims) : Except AuthErr Principal :=
  let subject := pyStrip (rawSubject c)
  if pyEmpty subject then
    .error (.http ⟨401, "Token missing required subject claim (sub).", some "Bearer"⟩)
  else
    let emailOpt :=
      match firstTruthy [c.email, c.preferred_username, c.upn] with
      | some e => if pyEmpty (pyStrip e) then none else some (pyStrip e)
      | none => none
    match roles_from_claims c with
    | .error m => .error (.valueError m)
    | .ok rs => .ok ⟨subject, emailOpt, rs⟩

/-! ### `app/core/security/jwt.py` — `verify_access_token` -/

/-- Outcome of the JWKS-key resolution plus `jwt.decode` call (delegated to
the PyJWT library, external to this repository): decoded claims, claims not
a JSON object, `ExpiredSignatureError`, another `InvalidTokenError` (with
`str(exc)`), or any other exception. -/
inductive DecodeOutcome where
  | ok (claims : Claims)
  | notDict
  | expired (msg : String)
  | invalidToken (msg : String)
  | otherError (msg : String)
deriving DecidableEq, Repr

/-- The `try`/`except` dispatch of `jwt.verify_access_token` (after JWKS
config resolution succeeded), as a function of the decode outcome:
`HTTPException`s raised inside the `try` are re-raised, expiry maps to 401
`"Token expired."`, other `InvalidTokenError`s to 401
`"Invalid token: " + str(exc)`, and any other exception (including the
`ValueError` from role mapping) to 401 `"Invalid token."`. -/
def verify_access_token (d : DecodeOutcome) : Except HTTPError Principal :=
  match d with
  | .ok claims =>
    match principal_from_claims claims with
    | .ok p => .ok p
    | .error (.http e) => .error e
    | .error (.valueError _) => .error ⟨401, "Invalid token.", some "Bearer"⟩
  | .notDict => .error ⟨401, "Token claims are not a JSON object.", some "Bearer"⟩
  | .expired _ => .error ⟨401, "Token expired.", some "Bearer"⟩
  | .invalidToken m => .error ⟨401, "Invalid token: " ++ m, some "Bearer"⟩
  | .otherError _ => .error ⟨401, "Invalid token.", some "Bearer"⟩

/-! ### `app/services/users.py` -/

/-- A document of the `users` collection. -/
structure UserDoc where
  id : Nat
  uname : String
  email : String
  created_at : Nat
  updated_at : Nat
  deleted_at : Option Nat := none
deriving DecidableEq, Repr

/-- The MongoDB unique index `uniq_email` on insert: inserting a document
whose `email` equals an existing document's raises `DuplicateKeyError`. -/
def emailTaken (db : List UserDoc) (e : String) : Bool :=
  db.any (fun d => decide (d.email = e))

/-- `UsersService.create_user`: lowercase the submitted email, insert (409
on the duplicate-email unique index), and return the inserted document.
`now` and `newId` stand for the wall clock and the generated ObjectId. -/
def create_user (db : List UserDoc) (uname email : String) (now newId : Nat) :
    Except HTTPError (List UserDoc × UserDoc) :=
  let e := pyLower email
  if emailTaken db e then
    .error ⟨409, "A user with this email already exists.", none⟩
  else
    let doc : UserDoc := ⟨newId, uname, e, now, now, none⟩
    .ok (db ++ [doc], doc)

/-- `UsersService.get_user`: find the non-soft-deleted document with the
given id, else 404. -/
def get_user (db : List UserDoc) (uid : Nat) : Except HTTPError UserDoc :=
  match db.find? (fun d => decide (d.id = uid) && decide (d.deleted_at = none)) with
  | some d => .ok d
  | none => .error ⟨404, "User not found.", none⟩

/-- `UsersService.update_user`: with no fields set, a no-op read; otherwise
`$set` name and/or lowercased email on the non-deleted document with the
given id (404 when absent, 409 when the new email collides with another
document under the unique index). -/
def update_user (db : List UserDoc) (uid : Nat) (uname? email? : Option String) (now : Nat) :
    Except HTTPError (List UserDoc × UserDoc) :=
  match uname?, email? with
  | none, none => (get_user db uid).map (fun d => (db, d))
  | _, _ =>
    match db.find? (fun d => decide (d.id = uid) && decide (d.deleted_at = none)) with
    | none => .error ⟨404, "User not found.", none⟩
    | some d =>
      let newEmail := match email? with | some e => pyLower e | none => d.email
      if email?.isSome && db.any (fun d2 => decide (d2.id ≠ uid) && decide (d2.email = newEmail)) then
        .error ⟨409, "A user with this email already exists.", none⟩
      else
        let d' : UserDoc :=
          { d with uname := (uname?.getD d.uname), email := newEmail, updated_at := now }
        .ok (db.map (fun x => if x.id = uid && x.deleted_at = none then d' else x), d')

/-! ### Helper lemmas -/

/-- Python `str()` of a `Role` enum member is injective. -/
theorem roleStr_injective (r r' : Role) (h : roleStr r = roleStr r') : r = r' := by
  cases r <;> cases r' <;> first | rfl | (exact absurd h (by decide))

/-- The membership test of `_enforce` holds exactly when the role
intersection is non-empty. -/
theorem require_roles_cond (required : List Role) (user : Principal) :
    ((user.roles.map roleStr).any
        (fun s => (required.map roleStr).any (fun t => decide (t = s))) = true)
      ↔ ∃ r, r ∈ user.roles ∧ r ∈ required := by
  simp only [List.any_eq_true, List.mem_map, decide_eq_true_eq]
  constructor
  · rintro ⟨s, ⟨r, hr, rfl⟩, t, ⟨r', hr', rfl⟩, heq⟩
    exact ⟨r, hr, by rwa [roleStr_injective r' r heq] at hr'⟩
  · rintro ⟨r, hr, hr'⟩
    exact ⟨roleStr r, ⟨r, hr, rfl⟩, roleStr r, ⟨r, hr', rfl⟩, rfl⟩

/-- C1 (counterexample): on the snapshot's `require_roles`, the guard built
from the empty required set raises 403 for a principal holding the Learner
role, instead of returning the principal. -/
theorem empty_required_roles_cx :
    require_roles [] ⟨"u", none, [Role.learner]⟩ = .error ⟨403, "Forbidden", none⟩ := rfl

/-- C1 (amended): the guard built by `require_roles` from the empty required
set denies every principal with 403 `"Forbidden"`; with an empty set the
string-intersection test can never succeed, so empty-set authorization never
returns the principal. -/
theorem empty_required_roles_denies_all (user : Principal) :
    require_roles [] user = .error ⟨403, "Forbidden", none⟩ := by
  simp [require_roles]

/-- C1 witness for the amended theorem. -/
theorem empty_required_roles_denies_all_witness :
    require_roles [] ⟨"v", some "v@e", []⟩ = .error ⟨403, "Forbidden", none⟩ :=
  empty_required_roles_denies_all ⟨"v", some "v@e", []⟩

/-- C5: for a non-empty required set, the guard returns the principal
unchanged iff the principal's roles intersect the required set; otherwise it
raises exactly `HTTPException(403, "Forbidden")`, a fixed message naming no
roles. -/
theorem rbac_guard_intersection (required : List Role) (user : Principal)
    (_hne : required ≠ []) :
    (require_roles required user = .ok user ↔ ∃ r, r ∈ user.roles ∧ r ∈ required) ∧
    ((¬ ∃ r, r ∈ user.roles ∧ r ∈ required) →
      require_roles required user = .error ⟨403, "Forbidden", none⟩) := by
  constructor
  · constructor
    · intro h
      by_contra hno
      have hcond :
          ((user.roles.map roleStr).any
            (fun s => (required.map roleStr).any (fun t => decide (t = s)))) = false := by
        rw [← Bool.not_eq_true]
        exact fun hc => hno ((require_roles_cond required user).mp hc)
      simp only [require_roles, hcond] at h
      exact Except.noConfusion h
    · intro hex
      have hcond := (require_roles_cond required user).mpr hex
      simp only [require_roles, hcond]
      rfl
  · intro hno
    have hcond :
        ((user.roles.map roleStr).any
          (fun s => (required.map roleStr).any (fun t => decide (t = s)))) = false := by
      rw [← Bool.not_eq_true]
      exact fun hc => hno ((require_roles_cond required user).mp hc)
    simp only [require_roles, hcond]
    rfl

/-- C5 witness: the guard for `[Admin]` admits an Admin principal. -/
theorem rbac_guard_intersection_witness :
    require_roles [Role.admin] ⟨"w", none, [Role.admin]⟩ = .ok ⟨"w", none, [Role.admin]⟩ :=
  ((rbac_guard_intersection [Role.admin] ⟨"w", none, [Role.admin]⟩ (by decide)).1).mpr
    ⟨Role.admin, by decide, by decide⟩

/-- C2: the snapshot's `get_current_principal` in real mode
(`AUTH_STUB=false`) raises `HTTPException(501, "Authentication is not
implemented yet.")` for every request — no `Authorization` header handling,
no 401, no `WWW-Authenticate` challenge, no delegation to
`verify_access_token` — while the repository's own tests
(`test_auth_stub.py`, `test_jwt_validation.py`) assert a 401 with a Bearer
challenge and delegation to the verifier. -/
theorem real_mode_resolver_returns_501 (h : ReqHeaders) :
    get_current_principal false h
      = .error ⟨501, "Authentication is not implemented yet.", none⟩ := rfl

/-- C3 (counterexample): two non-expiry verification failures
(signature mismatch vs issuer mismatch, both surfaced by the JWT library as
`InvalidTokenError`) produce different 401 details, so the non-expiry detail
is not one fixed generic message. -/
theorem token_error_detail_leaks_cx :
    verify_access_token (.invalidToken "Signature verification failed")
      = .error ⟨401, "Invalid token: Signature verification failed", some "Bearer"⟩ ∧
    verify_access_token (.invalidToken "Invalid issuer")
      = .error ⟨401, "Invalid token: Invalid issuer", some "Bearer"⟩ ∧
    ("Invalid token: Signature verification failed" : String)
      ≠ "Invalid token: Invalid issuer" :=
  ⟨rfl, rfl, by decide⟩

/-- C3 (amended): every verification failure yields a 401 with a Bearer
challenge; expiry is reported distinctly as `"Token expired."`; failures
surfaced as `InvalidTokenError` carry `"Invalid token: " + str(exc)`, which
varies with the failure cause; only exceptions outside the JWT hierarchy get
the fixed `"Invalid token."`; and the expiry message differs from both
non-expiry forms. -/
theorem token_error_details (m : String) :
    verify_access_token (.expired m) = .error ⟨401, "Token expired.", some "Bearer"⟩ ∧
    verify_access_token (.invalidToken m)
      = .error ⟨401, "Invalid token: " ++ m, some "Bearer"⟩ ∧
    verify_access_token (.otherError m) = .error ⟨401, "Invalid token.", some "Bearer"⟩ ∧
    "Invalid token: " ++ m ≠ "Token expired." := by
  refine ⟨rfl, rfl, rfl, fun hEq => ?_⟩
  have h2 : ("Invalid token: " ++ m).data.head? = ("Token expired." : String).data.head? :=
    congrArg (fun s : String => s.data.head?) hEq
  have h3 : some 'I' = some 'T' := h2
  exact absurd (Option.some.inj h3) (by decide)

/-- C3 witness: the amended statement at a concrete library message. -/
theorem token_error_details_witness :
    "Invalid token: Not enough segments" ≠ ("Token expired." : String) :=
  (token_error_details "Not enough segments").2.2.2

/-- C4 (counterexample): the pydantic `Principal` model accepts an empty
subject string — construction succeeds for `subject=""` with arbitrary other
fields, so the claimed construction-time non-emptiness invariant does not
hold. -/
theorem principal_empty_subject_accepted_cx :
    principal_model_validate (some "") (some (some "e@x")) (some [Role.learner])
      = some ⟨"", some "e@x", [Role.learner]⟩ := rfl

/-- C4 (amended): `Principal` construction fails when `subject` is missing
(required field) but accepts any present string including the empty one;
non-emptiness of the subject is enforced upstream, by
`_principal_from_claims`, whose successful results always carry a non-empty
subject. -/
theorem principal_subject_validation :
    (∀ e r, principal_model_validate none e r = none) ∧
    (∀ s e r, principal_model_validate (some s) e r = some ⟨s, e.getD none, r.getD []⟩) ∧
    (∀ c p, principal_from_claims c = .ok p → pyEmpty p.subject = false) := by
  refine ⟨fun e r => rfl, fun s e r => rfl, fun c p h => ?_⟩
  by_cases hs : pyEmpty (pyStrip (rawSubject c)) = true
  · simp only [principal_from_claims, hs, if_true] at h
    exact Except.noConfusion h
  · simp only [principal_from_claims, hs, if_false, Bool.false_eq_true] at h
    rcases hr : roles_from_claims c with m | rs <;> rw [hr] at h
    · exact Except.noConfusion h
    · cases Except.ok.inj h
      simpa using hs

/-- C4 witness: a principal produced by the claims mapper has a non-empty
subject. -/
theorem principal_subject_validation_witness :
    pyEmpty (Principal.subject ⟨"u7", none, []⟩) = false :=
  principal_subject_validation.2.2 { sub := some "u7" } ⟨"u7", none, []⟩ rfl

/-- C6 (counterexample): with claims `sub=" "`, `oid="x"`, the mapper fails
with 401 although `sub` (and `oid`) are present and non-empty: the Python
`or` chain picks the whitespace-only `sub`, whose stripped form is empty. -/
theorem subject_fallback_cx :
    principal_from_claims { sub := some " ", oid := some "x" }
      = .error (.http ⟨401, "Token missing required subject claim (sub).", some "Bearer"⟩) := rfl

/-- C6 (amended): the subject is the stripped first *truthy* (present,
non-empty before stripping) of `sub`, `oid`, `user_id`; the mapper fails
with the 401 subject error **exactly when** that stripped value is empty
(never for a non-empty stripped subject) — in particular a whitespace-only
`sub` shadows a non-empty `oid`.  Successful mappings carry exactly the
stripped chain value, and the fallback order is as claimed on claims with
genuinely absent earlier entries. -/
theorem subject_selection :
    (∀ c : Claims, principal_from_claims c
        = .error (.http ⟨401, "Token missing required subject claim (sub).", some "Bearer"⟩)
      ↔ pyEmpty (pyStrip (rawSubject c)) = true) ∧
    (∀ c p, principal_from_claims c = .ok p → p.subject = pyStrip (rawSubject c)) ∧
    (principal_from_claims { user_id := some "u3" } = .ok ⟨"u3", none, []⟩) ∧
    (principal_from_claims { sub := some "s1", oid := some "o2" } = .ok ⟨"s1", none, []⟩) := by
  refine ⟨fun c => ⟨fun h => ?_, fun hs => by simp only [principal_from_claims, hs, if_true]⟩,
    fun c p h => ?_, rfl, rfl⟩
  · by_cases hs : pyEmpty (pyStrip (rawSubject c)) = true
    · exact hs
    · exfalso
      simp only [principal_from_claims, hs, if_false, Bool.false_eq_true] at h
      rcases hr : roles_from_claims c with m | rs <;> rw [hr] at h
      · exact AuthErr.noConfusion (Except.error.inj h)
      · exact Except.noConfusion h
  · by_cases hs : pyEmpty (pyStrip (rawSubject c)) = true
    · simp only [principal_from_claims, hs, if_true] at h
      exact Except.noConfusion h
    · simp only [principal_from_claims, hs, if_false, Bool.false_eq_true] at h
      rcases hr : roles_from_claims c with m | rs <;> rw [hr] at h
      · exact Except.noConfusion h
      · cases Except.ok.inj h
        rfl

/-- C6 witness: applying the amended theorem to the all-absent claims
object, whose subject chain is empty. -/
theorem subject_selection_witness :
    principal_from_claims {}
      = .error (.http ⟨401, "Token missing required subject claim (sub).", some "Bearer"⟩) :=
  (subject_selection.1 {}).mpr rfl

/-- The dedup loop keeps a subsequence of its input (first-seen order). -/
theorem dedupRoles_sublist (l : List Role) : ∀ seen, (dedupRoles l seen).Sublist l := by
  induction l with
  | nil => intro seen; simp [dedupRoles]
  | cons a rest ih =>
    intro seen
    by_cases h : a ∈ seen
    · simp only [dedupRoles, if_pos h]
      exact (ih seen).cons a
    · simp only [dedupRoles, if_neg h]
      exact (ih (a :: seen)).cons₂ a

/-- Membership in the dedup loop's output. -/
theorem mem_dedupRoles (l : List Role) :
    ∀ seen r, r ∈ dedupRoles l seen ↔ r ∈ l ∧ r ∉ seen := by
  induction l with
  | nil => intro seen r; simp [dedupRoles]
  | cons a rest ih =>
    intro seen r
    by_cases h : a ∈ seen
    · simp only [dedupRoles, if_pos h]
      rw [ih]
      constructor
      · rintro ⟨h1, h2⟩
        exact ⟨List.mem_cons_of_mem a h1, h2⟩
      · rintro ⟨h1, h2⟩
        rcases List.mem_cons.mp h1 with rfl | h1'
        · exact absurd h h2
        · exact ⟨h1', h2⟩
    · simp only [dedupRoles, if_neg h]
      rw [List.mem_cons, ih]
      constructor
      · rintro (rfl | ⟨h1, h2⟩)
        · exact ⟨List.mem_cons_self _ _, h⟩
        · refine ⟨List.mem_cons_of_mem a h1, fun hc => h2 (List.mem_cons_of_mem a hc)⟩
      · rintro ⟨h1, h2⟩
        rcases List.mem_cons.mp h1 with rfl | h1'
        · exact Or.inl rfl
        · by_cases hra : r = a
          · exact Or.inl hra
          · exact Or.inr ⟨h1', by simp [List.mem_cons, hra, h2]⟩

/-- The dedup loop's output has no duplicates. -/
theorem dedupRoles_nodup (l : List Role) : ∀ seen, (dedupRoles l seen).Nodup := by
  induction l with
  | nil => intro seen; simp [dedupRoles]
  | cons a rest ih =>
    intro seen
    by_cases h : a ∈ seen
    · simp only [dedupRoles, if_pos h]
      exact ih seen
    · simp only [dedupRoles, if_neg h]
      refine List.nodup_cons.mpr ⟨fun hc => ?_, ih (a :: seen)⟩
      exact ((mem_dedupRoles rest (a :: seen) a).mp hc).2 (List.mem_cons_self a seen)

/-- C7: role extraction is strict on **each** of the `roles`/`role`/`groups`
claims — an error from consuming the `roles` claim aborts the whole
extraction with that error, as does an error from `role` (after `roles`
consumed successfully) or from `groups` (after `roles` and `role` did),
and an unrecognized role name in a consumed list is such an error — while
the `scope`/`scp` scan never fails: when the three strict claims consume
successfully, extraction succeeds and returns the deduplicated
concatenation in claim-priority order.  The dedup keeps first occurrences
in order (a duplicate-free subsequence with the same members).  Concretely,
an unrecognized name in `roles`, in `role` or in `groups` fails, while the
same name inside a `role:<name>` scope segment is skipped and non-matching
segments are ignored. -/
theorem roles_extraction_asymmetry :
    (∀ c e, consume c.roles = .error e → roles_from_claims c = .error e) ∧
    (∀ c r1 e, consume c.roles = .ok r1 → consume c.role = .error e →
      roles_from_claims c = .error e) ∧
    (∀ c r1 r2 e, consume c.roles = .ok r1 → consume c.role = .ok r2 →
      consume c.groups = .error e → roles_from_claims c = .error e) ∧
    (∀ s e, pyEmpty (pyStrip s) = false → from_str (pyStrip s) = .error e →
      consume (some (.list [s])) = .error e) ∧
    (∀ c r1 r2 r3, consume c.roles = .ok r1 → consume c.role = .ok r2 →
      consume c.groups = .ok r3 →
      roles_from_claims c = .ok (dedupRoles (r1 ++ r2 ++ r3 ++ scopeContrib c) [])) ∧
    (∀ l : List Role, (dedupRoles l []).Sublist l ∧ (dedupRoles l []).Nodup ∧
      ∀ r, r ∈ dedupRoles l [] ↔ r ∈ l) ∧
    (roles_from_claims { roles := some (.str "Bogus") } = .error "Unknown role: Bogus") ∧
    (roles_from_claims { role := some (.str "Nope") } = .error "Unknown role: Nope") ∧
    (roles_from_claims { groups := some (.list ["Admin", "Wat"]) }
      = .error "Unknown role: Wat") ∧
    (roles_from_claims { scope := some "role:Bogus roles:Admin openid offline_access" }
      = .ok [Role.admin]) := by
  refine ⟨fun c e h => ?_, fun c r1 e h1 h2 => ?_, fun c r1 r2 e h1 h2 h3 => ?_,
    fun s e hne hf => ?_, fun c r1 r2 r3 h1 h2 h3 => ?_,
    fun l => ⟨dedupRoles_sublist l [], dedupRoles_nodup l [],
      fun r => by simpa using mem_dedupRoles l [] r⟩, rfl, rfl, rfl, rfl⟩
  · simp only [roles_from_claims, h]
    rfl
  · simp only [roles_from_claims, h1, h2]
    rfl
  · simp only [roles_from_claims, h1, h2, h3]
    rfl
  · simp only [consume, List.map_cons, List.map_nil, parseRolesList, hne,
      Bool.false_eq_true, if_false, hf]
    rfl
  · simp only [roles_from_claims, h1, h2, h3]
    rfl

/-- C7 witness: an unrecognized name in the `role` claim aborts extraction
even after a successfully consumed `roles` claim. -/
theorem roles_extraction_asymmetry_witness :
    roles_from_claims { roles := some (.str "Learner"), role := some (.str "Unknown") }
      = .error "Unknown role: Unknown" :=
  roles_extraction_asymmetry.2.1
    { roles := some (.str "Learner"), role := some (.str "Unknown") }
    [Role.learner] "Unknown role: Unknown" rfl rfl

/-- The CSV loop body equals: drop the empty entries, then parse every
remaining token with `from_str`, first failure aborting. -/
theorem parseRolesList_eq_mapM (l : List String) :
    parseRolesList l = (l.filter (fun t => !pyEmpty t)).mapM from_str := by
  induction l with
  | nil => rfl
  | cons p ps ih =>
    cases hp : pyEmpty p with
    | true =>
      simp only [parseRolesList, hp, if_true, List.filter_cons, Bool.not_true, ih]
      simp
    | false =>
      simp only [parseRolesList, hp, Bool.false_eq_true, if_false, List.filter_cons,
        Bool.not_false, if_true, List.mapM_cons]
      cases hfs : from_str p with
      | error e => simp [hfs, ih, Bind.bind, Except.bind]
      | ok r => simp [hfs, ih, Bind.bind, Except.bind, pure, Except.pure]

/-- C8: stub-mode resolution — a missing `X-Auth-Subject` yields the fixed
placeholder `"stub-user"`; a role-CSV parse failure yields a 400 whose
detail is the `ValueError` text; the CSV parse splits on commas, strips
entries, skips empties and parses the rest with `from_str`; and the header
`X-Auth-Roles: Learner,Admin` resolves to a principal whose role set is
exactly `{Learner, Admin}`. -/
theorem stub_mode_resolution :
    (∀ em rl au p, get_current_principal true ⟨none, em, rl, au⟩ = .ok p →
      p.subject = "stub-user") ∧
    (∀ h s e, h.xAuthRoles = some s → pyEmpty s = false → parse_roles_csv s = .error e →
      get_current_principal true h = .error ⟨400, e, none⟩) ∧
    (∀ s, parse_roles_csv s
      = (((pySplitOn ',' s).map pyStrip).filter (fun t => !pyEmpty t)).mapM from_str) ∧
    (get_current_principal true ⟨some "u1", some "u@e.com", some "Learner,Admin", none⟩
      = .ok ⟨"u1", some "u@e.com", [Role.learner, Role.admin]⟩) ∧
    (∀ r : Role, r ∈ [Role.learner, Role.admin] ↔ (r = Role.learner ∨ r = Role.admin)) := by
  refine ⟨fun em rl au p h => ?_, fun h s e hrl hpe hps => ?_, fun s => ?_, rfl,
    fun r => by cases r <;> decide⟩
  · rcases rl with _ | s
    · cases h
      rfl
    · by_cases hpe : pyEmpty s = true
      · have hred : get_current_principal true ⟨none, em, some s, none⟩
            = get_current_principal true ⟨none, em, some s, au⟩ := rfl
        rw [← hred] at h
        have hred2 : get_current_principal true ⟨none, em, some s, none⟩
            = (match (if pyEmpty s then Except.ok [] else parse_roles_csv s) with
               | .error e => Except.error ⟨400, e, none⟩
               | .ok roles => Except.ok (⟨"stub-user", em, roles⟩ : Principal)) := rfl
        rw [hred2, hpe, if_pos rfl] at h
        cases h
        rfl
      · have hred2 : get_current_principal true ⟨none, em, some s, au⟩
            = (match (if pyEmpty s then Except.ok [] else parse_roles_csv s) with
               | .error e => Except.error ⟨400, e, none⟩
               | .ok roles => Except.ok (⟨"stub-user", em, roles⟩ : Principal)) := rfl
        rw [Bool.not_eq_true] at hpe
        rw [hred2, hpe, if_neg (by simp)] at h
        rcases hps : parse_roles_csv s with e | roles <;> rw [hps] at h
        · exact Except.noConfusion h
        · cases h
          rfl
  · rcases h with ⟨sub?, em, rl, au⟩
    simp only at hrl
    subst hrl
    rcases sub? with _ | subj
    · have hred : get_current_principal true ⟨none, em, some s, au⟩
          = (match (if pyEmpty s then Except.ok [] else parse_roles_csv s) with
             | .error e => Except.error ⟨400, e, none⟩
             | .ok roles => Except.ok (⟨"stub-user", em, roles⟩ : Principal)) := rfl
      rw [hred, hpe, if_neg (by simp), hps]
    · have hred : get_current_principal true ⟨some subj, em, some s, au⟩
          = (match (if pyEmpty s then Except.ok [] else parse_roles_csv s) with
             | .error e => Except.error ⟨400, e, none⟩
             | .ok roles =>
               Except.ok (⟨if pyEmpty subj then "stub-user" else subj, em, roles⟩ : Principal)) :=
        rfl
      rw [hred, hpe, if_neg (by simp), hps]
  · rcases s with ⟨data⟩
    cases data with
    | nil => rfl
    | cons c cs =>
      have hp : pyEmpty ⟨c :: cs⟩ = false := rfl
      simp only [parse_roles_csv, hp, Bool.false_eq_true, if_false]
      exact parseRolesList_eq_mapM _

/-- C8 witness: an unrecognized role token in the roles header produces a
400 carrying the parser's message. -/
theorem stub_mode_resolution_witness :
    get_current_principal true ⟨some "u9", none, some "Learner,Nope", none⟩
      = .error ⟨400, "Unknown role: Nope", none⟩ :=
  stub_mode_resolution.2.1 ⟨some "u9", none, some "Learner,Nope", none⟩
    "Learner,Nope" "Unknown role: Nope" rfl rfl rfl

/-- C9: `from_str` rejects the separator variants of SuperAdmin
(`"super_admin"`, `"super-admin"`, `"super admin"`) with a `ValueError`,
although the function's own docstring gives `"super_admin"` as an accepted
example; the enum-value and case-variant forms do parse, the round trip
`from_str (role.value) = role` holds for every role, and unknown strings
fail (no default). -/
theorem role_parser_separator_gap :
    from_str "super_admin" = .error "Unknown role: super_admin" ∧
    from_str "super-admin" = .error "Unknown role: super-admin" ∧
    from_str "super admin" = .error "Unknown role: super admin" ∧
    from_str "SuperAdmin" = .ok Role.superadmin ∧
    from_str "superadmin" = .ok Role.superadmin ∧
    (∀ r : Role, from_str r.value = .ok r) ∧
    from_str "NotARole" = .error "Unknown role: NotARole" :=
  ⟨rfl, rfl, rfl, rfl, rfl, fun r => by cases r <;> rfl, rfl⟩

/-- A successful `create_user` stores the lowercased submitted email and
appends the new document. -/
theorem create_user_ok (db : List UserDoc) (uname email : String) (now newId : Nat)
    (db' : List UserDoc) (doc : UserDoc)
    (h : create_user db uname email now newId = .ok (db', doc)) :
    doc.email = pyLower email ∧ db' = db ++ [doc] := by
  by_cases ht : emailTaken db (pyLower email) = true
  · simp only [create_user, ht, if_true] at h
    exact Except.noConfusion h
  · simp only [create_user, ht, Bool.false_eq_true, if_false] at h
    have hp := Except.ok.inj h
    have h1 : (⟨newId, uname, pyLower email, now, now, none⟩ : UserDoc) = doc :=
      congrArg Prod.snd hp
    have h2 : db ++ [(⟨newId, uname, pyLower email, now, now, none⟩ : UserDoc)] = db' :=
      congrArg Prod.fst hp
    subst h1
    exact ⟨rfl, h2.symm⟩

/-- C10: `create_user` persists the lowercased submitted email (appending
the document), `update_user` persists a lowercased submitted email, and the
duplicate-email 409 is case-insensitive in the submitted email: creating
with any email whose lowercase form matches a just-created user's conflicts,
and likewise (concretely) updating another user onto a stored email in a
different case conflicts. -/
theorem user_email_lowercased :
    (∀ db uname email now newId db' doc,
      create_user db uname email now newId = .ok (db', doc) →
      doc.email = pyLower email ∧ db' = db ++ [doc]) ∧
    (∀ db uid uname? email now db' doc,
      update_user db uid uname? (some email) now = .ok (db', doc) →
      doc.email = pyLower email) ∧
    (∀ db uname1 email1 now1 id1 db' doc,
      create_user db uname1 email1 now1 id1 = .ok (db', doc) →
      ∀ uname2 email2 now2 id2, pyLower email2 = pyLower email1 →
        create_user db' uname2 email2 now2 id2
          = .error ⟨409, "A user with this email already exists.", none⟩) ∧
    (update_user [⟨1, "A", "bob@x.com", 0, 0, none⟩, ⟨2, "B", "joe@x.com", 0, 0, none⟩]
        2 none (some "BOB@X.COM") 9
      = .error ⟨409, "A user with this email already exists.", none⟩) := by
  refine ⟨fun db uname email now newId db' doc h => create_user_ok _ _ _ _ _ _ _ h,
    fun db uid uname? email now db' doc h => ?_, fun db u1 e1 n1 i1 db' doc h u2 e2 n2 i2 he => ?_,
    rfl⟩
  · rcases uname? with _ | un <;>
    · rcases hf : (db.find? (fun d => decide (d.id = uid) && decide (d.deleted_at = none)))
        with _ | d
      · simp only [update_user, hf] at h
        exact Except.noConfusion h
      · simp only [update_user, hf] at h
        by_cases hd : (db.any
            (fun d2 => decide (d2.id ≠ uid) && decide (d2.email = pyLower email))) = true <;>
          simp only [Option.isSome_some, Bool.true_and, hd, Bool.false_eq_true, if_true,
            if_false] at h
        · exact Except.noConfusion h
        · cases Except.ok.inj h
          rfl
  · obtain ⟨hdoc, hdb⟩ := create_user_ok _ _ _ _ _ _ _ h
    have hmem : doc ∈ db' := hdb ▸ List.mem_append_right db (List.mem_singleton.mpr rfl)
    have htaken : emailTaken db' (pyLower e2) = true := by
      simp only [emailTaken, List.any_eq_true, decide_eq_true_eq]
      exact ⟨doc, hmem, by rw [hdoc, he]⟩
    simp only [create_user, htaken, if_true]

/-- C10 witness: a second create whose email differs only in case from the
first stored (lowercased) email is rejected with 409. -/
theorem user_email_lowercased_witness :
    create_user [⟨1, "A", "bob@x.com", 0, 0, none⟩] "B" "BOB@X.com" 5 2
      = .error ⟨409, "A user with this email already exists.", none⟩ :=
  user_email_lowercased.2.2.1 [] "A" "Bob@X.com" 0 1 [⟨1, "A", "bob@x.com", 0, 0, none⟩]
    ⟨1, "A", "bob@x.com", 0, 0, none⟩ rfl "B" "BOB@X.com" 5 2 rfl

end LMS
